import Mathlib

/-!
Verification of the geometric/assembly core of the vehicle-entry/exit
registration microservices (plate detection service and CIN extraction
service).  Real-valued image arithmetic is embedded over `ℚ`; Python's
`int(...)` truncation and `round(...)` (half-to-even) are modelled
explicitly.  External collaborators (OpenCV primitives, the neural
detectors, the OCR engine) are abstracted as function parameters; every
definition below is translated from the Python source of the repository.
-/

/-- Python `int(x)` applied to a real value: truncation toward zero. -/
def pyInt (q : ℚ) : ℤ := if 0 ≤ q then ⌊q⌋ else ⌈q⌉

/-- Python 3 `round(x)` at integer precision: round half to even. -/
def pyRound (q : ℚ) : ℤ :=
  if Int.fract q = 1/2 then (if ⌊q⌋ % 2 = 0 then ⌊q⌋ else ⌊q⌋ + 1) else round q

/-- Integer box `(x_min, y_min, x_max, y_max)` in a reference image frame. -/
structure IBox where
  x1 : ℤ
  y1 : ℤ
  x2 : ℤ
  y2 : ℤ
deriving DecidableEq

/-- The `scaling_meta` dictionary produced by `preprocess_image_car`
(stage 1 letterbox): original dimensions, resize scale and padding offsets. -/
structure CarMeta where
  original_height : ℤ
  original_width : ℤ
  scale : ℚ
  pad_top : ℤ
  pad_left : ℤ
deriving DecidableEq

/-- The `scaling_meta` dictionary produced by `preprocess_image_plate`
(stage 2 letterbox). -/
structure PlateMeta where
  original_h : ℤ
  original_w : ℤ
  scale : ℚ
  top_pad : ℤ
  left_pad : ℤ
deriving DecidableEq

/-- The scaling data returned by `CinExtractionServicer._preprocess_image`:
`(original_h, original_w, scale, top, left)`. -/
structure CinMeta where
  orig_h : ℤ
  orig_w : ℤ
  scale : ℚ
  pad_top : ℤ
  pad_left : ℤ
deriving DecidableEq

/-- Geometric part of `preprocess_image_car` (plate_detection_service.py,
lines 47-80): the letterbox scale, resized dimensions and padding offsets.
Pixel data/normalization is irrelevant to the coordinate claims. -/
structure CarPrep where
  meta : CarMeta
  new_height : ℤ
  new_width : ℤ
deriving DecidableEq

def preprocess_image_car_meta (original_height original_width target_height target_width : ℤ) :
    CarPrep :=
  let scale : ℚ := min ((target_height : ℚ) / (original_height : ℚ))
                       ((target_width : ℚ) / (original_width : ℚ))
  let new_height := pyRound ((original_height : ℚ) * scale)
  let new_width := pyRound ((original_width : ℚ) * scale)
  let pad_top := Int.fdiv (target_height - new_height) 2
  let pad_left := Int.fdiv (target_width - new_width) 2
  ⟨⟨original_height, original_width, scale, pad_top, pad_left⟩, new_height, new_width⟩

/-- Module-level `scale_coords_car` (plate_detection_service.py, lines 86-119):
subtract padding, guard `scale == 0`, divide by scale, clamp each coordinate
into `[0, original_dim]`, then `int(...)`. -/
def scale_coords_car (x_min y_min x_max y_max : ℚ) (m : CarMeta) : IBox :=
  let x_min_unpad := x_min - (m.pad_left : ℚ)
  let y_min_unpad := y_min - (m.pad_top : ℚ)
  let x_max_unpad := x_max - (m.pad_left : ℚ)
  let y_max_unpad := y_max - (m.pad_top : ℚ)
  if m.scale = 0 then ⟨0, 0, 0, 0⟩
  else
    let ox1 := max 0 (min (x_min_unpad / m.scale) (m.original_width : ℚ))
    let oy1 := max 0 (min (y_min_unpad / m.scale) (m.original_height : ℚ))
    let ox2 := max 0 (min (x_max_unpad / m.scale) (m.original_width : ℚ))
    let oy2 := max 0 (min (y_max_unpad / m.scale) (m.original_height : ℚ))
    ⟨pyInt ox1, pyInt oy1, pyInt ox2, pyInt oy2⟩

/-- `PlateDetectionServicer.scale_coords_car` (lines 330-357): subtract
padding on integer inputs, guard `scale == 0`, divide and `int(...)`, then
clamp only `x_min, y_min` from below and only `x_max, y_max` from above. -/
def servicer_scale_coords_car (box_raw : IBox) (m : CarMeta) : IBox :=
  let box_pad_x_min := box_raw.x1 - m.pad_left
  let box_pad_y_min := box_raw.y1 - m.pad_top
  let box_pad_x_max := box_raw.x2 - m.pad_left
  let box_pad_y_max := box_raw.y2 - m.pad_top
  if m.scale = 0 then ⟨0, 0, 0, 0⟩
  else
    let x_min := pyInt ((box_pad_x_min : ℚ) / m.scale)
    let y_min := pyInt ((box_pad_y_min : ℚ) / m.scale)
    let x_max := pyInt ((box_pad_x_max : ℚ) / m.scale)
    let y_max := pyInt ((box_pad_y_max : ℚ) / m.scale)
    ⟨max 0 x_min, max 0 y_min, min m.original_width x_max, min m.original_height y_max⟩

/-- `PlateDetectionServicer.scale_coords_plate` (lines 421-449): subtract
padding, guard `scale == 0`, divide, then `max(0, int(mins))` and
`min(orig, int(maxs))`. -/
def servicer_scale_coords_plate (x_min y_min x_max y_max : ℚ) (mp : PlateMeta) : IBox :=
  let x_min_unpad := x_min - (mp.left_pad : ℚ)
  let y_min_unpad := y_min - (mp.top_pad : ℚ)
  let x_max_unpad := x_max - (mp.left_pad : ℚ)
  let y_max_unpad := y_max - (mp.top_pad : ℚ)
  if mp.scale = 0 then ⟨0, 0, 0, 0⟩
  else
    ⟨max 0 (pyInt (x_min_unpad / mp.scale)),
     max 0 (pyInt (y_min_unpad / mp.scale)),
     min mp.original_w (pyInt (x_max_unpad / mp.scale)),
     min mp.original_h (pyInt (y_max_unpad / mp.scale))⟩

/-- The inverse mapping inlined in `CinExtractionServicer.ExtractCinData`
(cin_extraction_service.py, lines 227-237): clamp `x_min, y_min` from below
at 0 and `x_max, y_max` from above at the original dimension, in rational
arithmetic, then `int(...)` each coordinate for `box_orig`. -/
def cin_scale_box (mt : CinMeta) (x_min_pad y_min_pad x_max_pad y_max_pad : ℚ) : IBox :=
  let x_min_orig := max 0 ((x_min_pad - (mt.pad_left : ℚ)) / mt.scale)
  let y_min_orig := max 0 ((y_min_pad - (mt.pad_top : ℚ)) / mt.scale)
  let x_max_orig := min (mt.orig_w : ℚ) ((x_max_pad - (mt.pad_left : ℚ)) / mt.scale)
  let y_max_orig := min (mt.orig_h : ℚ) ((y_max_pad - (mt.pad_top : ℚ)) / mt.scale)
  ⟨pyInt x_min_orig, pyInt y_min_orig, pyInt x_max_orig, pyInt y_max_orig⟩

/-- Forward letterbox mapping of an x coordinate from reference space into
model/padded space, as performed by `preprocess_image_car`: multiply by the
scale, then shift by the left padding. -/
def to_model_x (m : CarMeta) (x : ℤ) : ℚ := (x : ℚ) * m.scale + (m.pad_left : ℚ)

/-- Forward letterbox mapping of a y coordinate from reference space into
model/padded space. -/
def to_model_y (m : CarMeta) (y : ℤ) : ℚ := (y : ℚ) * m.scale + (m.pad_top : ℚ)

/-- Stage-1 confidence threshold `self.CAR_CONFIDENCE_THRESHOLD = 0.53`. -/
def CAR_CONFIDENCE_THRESHOLD : ℚ := (53 : ℚ) / 100

/-- Stage-2 confidence threshold `self.PLATE_CONFIDENCE_THRESHOLD = 0.54`. -/
def PLATE_CONFIDENCE_THRESHOLD : ℚ := (54 : ℚ) / 100

/-- CIN service confidence threshold `CONFIDENCE_THRESHOLD = 0.54`. -/
def CONFIDENCE_THRESHOLD : ℚ := (54 : ℚ) / 100

/-- A stage-1 raw detection row `(x_min, y_min, x_max, y_max, confidence)`
from the car model output tensor. -/
structure Det1 where
  x1 : ℚ
  y1 : ℚ
  x2 : ℚ
  y2 : ℚ
  conf : ℚ
deriving DecidableEq

/-- A stage-2 raw detection: a `dets` row plus its aligned `labels` entry. -/
structure Det2 where
  x1 : ℚ
  y1 : ℚ
  x2 : ℚ
  y2 : ℚ
  conf : ℚ
  label : ℤ
deriving DecidableEq

/-- A retained stage-2 detection dictionary
`{x1, y1, x2, y2, class_name, confidence, ocr_text}` (lines 570-573). -/
structure MDet2 where
  x1 : ℤ
  y1 : ℤ
  x2 : ℤ
  y2 : ℤ
  class_name : String
  confidence : ℚ
  ocr_text : Option String
deriving DecidableEq

/-- `dict.get` over a class-label map loaded from `dm.json`. -/
def lookup_label (m : List (ℤ × String)) (k : ℤ) : Option String :=
  List.lookup k m

/-- `self.class_map.get(label_index, f"Label_{label_index}")`
(plate_detection_service.py, line 564). -/
def plate_class_name (m : List (ℤ × String)) (k : ℤ) : String :=
  (lookup_label m k).getD ("Label_" ++ toString k)

/-- `self.class_id_to_name.get(label_id, f"unknown_id_{label_id}")`
(cin_extraction_service.py, line 218). -/
def cin_class_name (m : List (ℤ × String)) (k : ℤ) : String :=
  (lookup_label m k).getD ("unknown_id_" ++ toString k)

/-- Stage-1 mapping of one raw detection: `map(int, detection_data[:4])`
followed by `self.scale_coords_car(...)` (lines 503-505). -/
def map_car_det (m : CarMeta) (d : Det1) : IBox :=
  servicer_scale_coords_car ⟨pyInt d.x1, pyInt d.y1, pyInt d.x2, pyInt d.y2⟩ m

/-- The conditions under which a stage-1 detection is a candidate for
`best_plate_crop` (lines 502-510): confidence strictly above the threshold,
mapped box with positive extent in both axes, and a nonempty crop.  The crop
size is abstracted as a function of the mapped box. -/
def passes_car (crop_size : IBox → ℕ) (m : CarMeta) (d : Det1) : Bool :=
  decide (CAR_CONFIDENCE_THRESHOLD < d.conf)
    && decide ((map_car_det m d).x1 < (map_car_det m d).x2)
    && decide ((map_car_det m d).y1 < (map_car_det m d).y2)
    && decide (0 < crop_size (map_car_det m d))

/-- `max_confidence_stage1` as a function of the current best candidate:
`0.0` before any candidate is accepted (line 493). -/
def max_conf1 (acc : Option Det1) : ℚ :=
  match acc with
  | none => 0
  | some d => d.conf

/-- One iteration of the stage-1 selection loop (lines 495-514): a passing
detection replaces the current best only when its confidence is strictly
greater than `max_confidence_stage1`. -/
def stage1_step (crop_size : IBox → ℕ) (m : CarMeta) (acc : Option Det1) (d : Det1) :
    Option Det1 :=
  if passes_car crop_size m d && decide (max_conf1 acc < d.conf) then some d else acc

/-- The stage-1 best-single selection over the whole detection list,
starting from `best_plate_crop = None`, `max_confidence_stage1 = 0.0`. -/
def stage1_select (crop_size : IBox → ℕ) (m : CarMeta) (dets : List Det1) : Option Det1 :=
  dets.foldl (stage1_step crop_size m) none

/-- The `relevant_detections` entry built for a kept stage-2 detection
(lines 564-573): mapped box, resolved class name, confidence, no OCR yet. -/
def stage2_detection (cm : List (ℤ × String)) (mp : PlateMeta) (d : Det2) : MDet2 :=
  { x1 := (servicer_scale_coords_plate d.x1 d.y1 d.x2 d.y2 mp).x1
    y1 := (servicer_scale_coords_plate d.x1 d.y1 d.x2 d.y2 mp).y1
    x2 := (servicer_scale_coords_plate d.x1 d.y1 d.x2 d.y2 mp).x2
    y2 := (servicer_scale_coords_plate d.x1 d.y1 d.x2 d.y2 mp).y2
    class_name := plate_class_name cm d.label
    confidence := d.conf
    ocr_text := none }

/-- The retain conditions of the stage-2 loop (lines 558-569), as one
conjunction: `confidence >= threshold`, class name in the allow-list
`["num", "tun"]`, and mapped box with `x1 < x2 and y1 < y2`. -/
def stage2_keeps (cm : List (ℤ × String)) (mp : PlateMeta) (d : Det2) : Bool :=
  decide (PLATE_CONFIDENCE_THRESHOLD ≤ d.conf)
    && (decide (plate_class_name cm d.label = "num")
        || decide (plate_class_name cm d.label = "tun"))
    && decide ((stage2_detection cm mp d).x1 < (stage2_detection cm mp d).x2)
    && decide ((stage2_detection cm mp d).y1 < (stage2_detection cm mp d).y2)

/-- One iteration of the stage-2 loop: append the kept detection and
accumulate `avg_stage2_confidence += confidence; num_relevant_dets += 1`. -/
def stage2_step (cm : List (ℤ × String)) (mp : PlateMeta)
    (acc : List MDet2 × ℚ × ℕ) (d : Det2) : List MDet2 × ℚ × ℕ :=
  if stage2_keeps cm mp d then
    (acc.1 ++ [stage2_detection cm mp d], acc.2.1 + d.conf, acc.2.2 + 1)
  else acc

/-- The full stage-2 retain-all-valid pass (lines 554-576), returning
`(relevant_detections, avg_stage2_confidence accumulator, num_relevant_dets)`. -/
def stage2_filter (cm : List (ℤ × String)) (mp : PlateMeta) (dets : List Det2) :
    List MDet2 × ℚ × ℕ :=
  dets.foldl (stage2_step cm mp) ([], 0, 0)

/-- Whether `needle` is a prefix of `hay`, over character lists. -/
def list_starts_with : List Char → List Char → Bool
  | [], _ => true
  | _ :: _, [] => false
  | a :: as1, b :: bs1 => a == b && list_starts_with as1 bs1

/-- Whether `needle` occurs as a contiguous sublist of `hay`. -/
def list_has_sub (needle : List Char) : List Char → Bool
  | [] => needle.isEmpty
  | b :: bs1 => list_starts_with needle (b :: bs1) || list_has_sub needle bs1

/-- Python's `needle in hay` on strings: substring containment. -/
def py_in (needle hay : String) : Bool := list_has_sub needle.data hay.data

/-- Python `str(...)` of a list of strings, as used by the f-string
`f"Unrecognized plate pattern: {detection_sequence}"`. -/
def py_str_list (l : List String) : String :=
  let quote := String.singleton (Char.ofNat 39)
  "[" ++ String.intercalate (", ") (l.map (fun s => quote ++ s ++ quote)) ++ "]"

/-- Truthiness-plus-sentinel test on an `ocr_text` slot:
`ocr and '[OCR' not in ocr and '[NO' not in ocr` (lines 626-627, 645, 661). -/
def valid_num_text (o : Option String) : Bool :=
  match o with
  | none => false
  | some s => !(s == "") && !(py_in ("[OCR") s) && !(py_in ("[NO") s)

/-- Python `ocr or '[N/A]'`: the text when truthy, else the placeholder. -/
def or_na (o : Option String) : String :=
  match o with
  | none => "[N/A]"
  | some s => if s == "" then "[N/A]" else s

/-- The `(final_plate_string, error_occurred, error_message_assembly)`
triple built by the stage-4 assembly block. -/
structure AsmResult where
  plate : String
  error_occurred : Bool
  error_message : String
deriving DecidableEq

/-- The pattern-matching body of stage 4 (lines 612-676): exact match of
the class-name sequence against the three known layouts, slot substitution,
and the unrecognized-pattern fallback. -/
def assemble_core (sorted_detections : List MDet2) : AsmResult :=
  let seq := sorted_detections.map (fun d => d.class_name)
  if seq = ["num", "tun", "num"] then
    if sorted_detections.length = 3 then
      let ocr1 := (sorted_detections.get? 0).bind (fun d => d.ocr_text)
      let ocr2 := (sorted_detections.get? 2).bind (fun d => d.ocr_text)
      if valid_num_text ocr1 && valid_num_text ocr2 then
        ⟨ocr1.getD ("") ++ " TN " ++ ocr2.getD (""), false, ""⟩
      else
        let failed_parts :=
          (if valid_num_text ocr1 then [] else ["first number"])
            ++ (if valid_num_text ocr2 then [] else ["second number"])
        ⟨"OCR Incomplete: " ++ or_na ocr1 ++ " TN " ++ or_na ocr2, true,
         "OCR failed on " ++ String.intercalate (", ") failed_parts⟩
    else ⟨"", true, "Detection count mismatch for num-tun-num pattern"⟩
  else if seq = ["num", "tun"] then
    if sorted_detections.length = 2 then
      let ocr_num := (sorted_detections.get? 0).bind (fun d => d.ocr_text)
      if valid_num_text ocr_num then ⟨"RS " ++ ocr_num.getD (""), false, ""⟩
      else
        ⟨"RS OCR Error: " ++ or_na ocr_num, true,
         "OCR failed on number part for RS-style plate"⟩
    else ⟨"", true, "Detection count mismatch for num-tun pattern"⟩
  else if seq = ["tun", "num"] then
    if sorted_detections.length = 2 then
      let ocr_num := (sorted_detections.get? 1).bind (fun d => d.ocr_text)
      if valid_num_text ocr_num then ⟨"RS " ++ ocr_num.getD (""), false, ""⟩
      else
        ⟨"RS OCR Error: " ++ or_na ocr_num, true,
         "OCR failed on number part for RS-style plate"⟩
    else ⟨"", true, "Detection count mismatch for tun-num pattern"⟩
  else ⟨"Pattern Error", true, "Unrecognized plate pattern: " ++ py_str_list seq⟩

/-- Full stage-4 assembly: the pattern body followed by the final
empty-string safety net (lines 678-680). -/
def assemble_plate (sorted_detections : List MDet2) : AsmResult :=
  let r := assemble_core sorted_detections
  if r.plate == "" && !r.error_occurred then
    ⟨r.plate, true, "Failed to assemble plate string"⟩
  else r

/-- The success flag computed by `DetectPlate` (line 699):
`error_message is None and bool(plate_number) and "Error" not in plate_number`. -/
def detect_plate_success (plate_number : String) (error_message : Option String) : Bool :=
  error_message.isNone && !(plate_number == "") && !(py_in ("Error") plate_number)

/-- Stable insertion of a later element after existing elements with
`x1` keys less than or equal to its own. -/
def insert_by_x1 (d : MDet2) : List MDet2 → List MDet2
  | [] => [d]
  | e :: rest => if e.x1 ≤ d.x1 then e :: insert_by_x1 d rest else d :: e :: rest

/-- `sorted(relevant_detections, key=lambda d: d['x1'])`: a stable
ascending sort on `x1` (line 583). -/
def sort_by_x1 (l : List MDet2) : List MDet2 :=
  l.foldl (fun acc d => insert_by_x1 d acc) []

/-- The `(plate_string, confidence, error_message)` triple returned by
`_perform_detection`. -/
structure PlateOutcome where
  plate_number : String
  confidence : ℚ
  error_message : Option String
deriving DecidableEq

/-- `_perform_detection` from the stage-2 post-processing onward
(lines 554-684), given the best stage-1 confidence: filter stage-2
detections, bail out when none remain, compute the aggregate confidence,
sort left-to-right, run OCR on the `num` slots (the OCR engine is the
abstract `ocr` parameter, covering crop/readtext/sentinel assignment), and
assemble the plate string. -/
def perform_stage2 (ocr : MDet2 → String) (max_confidence_stage1 : ℚ)
    (cm : List (ℤ × String)) (mp : PlateMeta) (dets : List Det2) : PlateOutcome :=
  let acc := stage2_filter cm mp dets
  if acc.1.isEmpty then
    ⟨"", max_confidence_stage1, some ("No characters detected in Stage 2")⟩
  else
    let avg_stage2_confidence := if 0 < acc.2.2 then acc.2.1 / (acc.2.2 : ℚ) else 0
    let overall_confidence := (max_confidence_stage1 + avg_stage2_confidence) / 2
    let sorted_detections := sort_by_x1 acc.1
    let with_ocr := sorted_detections.map
      (fun d => if d.class_name = "num" then { d with ocr_text := some (ocr d) } else d)
    let r := assemble_plate with_ocr
    ⟨r.plate, overall_confidence, if r.error_occurred then some r.error_message else none⟩

/-- Python `max(contours, key=cv2.contourArea)` on a nonempty list: the
first element attaining the maximal key (later elements replace the current
best only when strictly greater). -/
def py_max_by {C : Type} (area : C → ℚ) (c0 : C) (rest : List C) : C :=
  rest.foldl (fun best c => if area best < area c then c else best) c0

/-- Angle normalization of `detect_and_correct_rotation` (lines 150-153,
373-374): into the `[-45, 45]` band. -/
def norm_angle (a : ℚ) : ℚ :=
  if a < -45 then 90 + a else if 45 < a then a - 90 else a

/-- The rotation dead-zone `ANGLE_THRESHOLD = 2.0`. -/
def ANGLE_THRESHOLD : ℚ := 2

/-- The OpenCV collaborators used by `detect_and_correct_rotation`,
abstracted: each call can raise (modelled as `Except`). `to_binary`
bundles `cvtColor`/`GaussianBlur`/`adaptiveThreshold`. -/
structure CvOps (Img Bin Contour : Type) where
  size : Img → ℕ
  to_binary : Img → Except Unit Bin
  find_contours : Bin → Except Unit (List Contour)
  contour_area : Contour → ℚ
  min_area_rect_angle : Contour → Except Unit ℚ
  warp_rotate : Img → ℚ → Except Unit Img

/-- The body of the `try` block of `detect_and_correct_rotation`
(lines 360-381) after the emptiness guard: threshold, find contours (empty
list returns the input unchanged), largest contour, normalized angle,
dead-zone test, rotation. -/
def rotation_core {Img Bin Contour : Type} (ops : CvOps Img Bin Contour) (img : Img) :
    Except Unit Img :=
  match ops.to_binary img with
  | Except.error e => Except.error e
  | Except.ok bin =>
    match ops.find_contours bin with
    | Except.error e => Except.error e
    | Except.ok [] => Except.ok img
    | Except.ok (c0 :: rest) =>
      match ops.min_area_rect_angle (py_max_by ops.contour_area c0 rest) with
      | Except.error e => Except.error e
      | Except.ok raw =>
        if |norm_angle raw| < ANGLE_THRESHOLD then Except.ok img
        else ops.warp_rotate img (norm_angle raw)

/-- `detect_and_correct_rotation` (lines 360-384): `None`/zero-size inputs
are returned unchanged, and any exception inside the body yields the
original image (`except: return plate_img`). -/
def detect_and_correct_rotation {Img Bin Contour : Type} (ops : CvOps Img Bin Contour)
    (plate_img : Option Img) : Option Img :=
  match plate_img with
  | none => none
  | some img =>
    if ops.size img = 0 then some img
    else
      match rotation_core ops img with
      | Except.ok r => some r
      | Except.error _ => some img

/-- A raw CIN detection: a `output_dets` row plus its `output_labels` entry. -/
structure CinRaw where
  x1 : ℚ
  y1 : ℚ
  x2 : ℚ
  y2 : ℚ
  conf : ℚ
  label : ℤ
deriving DecidableEq

/-- A retained CIN detection dictionary (lines 232-238); `box_padded` is
omitted as it is never read afterwards. -/
structure CinDet where
  class_name : String
  label_id : ℤ
  confidence : ℚ
  box_orig : IBox
deriving DecidableEq

/-- One retained CIN detection entry (lines 217-238). -/
def cin_detection (m : List (ℤ × String)) (mt : CinMeta) (r : CinRaw) : CinDet :=
  ⟨cin_class_name m r.label, r.label, r.conf, cin_scale_box mt r.x1 r.y1 r.x2 r.y2⟩

/-- The CIN detection loop (lines 214-238): keep rows with
`confidence >= CONFIDENCE_THRESHOLD`, resolving class names and mapping
boxes back to the original image. -/
def cin_build_detections (m : List (ℤ × String)) (mt : CinMeta) (raws : List CinRaw) :
    List CinDet :=
  raws.foldl
    (fun acc r => if CONFIDENCE_THRESHOLD ≤ r.conf then acc ++ [cin_detection m mt r] else acc)
    []

/-- Python `"...".strip()` after concatenating OCR parts with spaces. -/
def join_ocr_parts (parts : List String) : String :=
  (parts.foldl (fun a t => a ++ t ++ " ") ("")).trim

/-- The CIN OCR loop (lines 248-295): skip invalid boxes and empty crops,
run OCR (abstracted as `ocr`, returning the recognized text pieces), and
record the concatenated text under the field's class name when the OCR
result list is nonempty.  Later detections of the same field overwrite
earlier ones, which the association list models by prepending. -/
def cin_extract_texts (crop_size : IBox → ℕ) (ocr : CinDet → List String)
    (dets : List CinDet) : List (String × String) :=
  dets.foldl
    (fun texts det =>
      if det.box_orig.x1 < det.box_orig.x2 ∧ det.box_orig.y1 < det.box_orig.y2 then
        if 0 < crop_size det.box_orig then
          match ocr det with
          | [] => texts
          | parts => (det.class_name, join_ocr_parts parts) :: texts
        else texts
      else texts)
    []

/-- `extracted_texts.get(key, "")`. -/
def get_text (texts : List (String × String)) (k : String) : String :=
  (List.lookup k texts).getD ("")

/-- The relevant fields of the gRPC `CinResponse` message. -/
structure CinResponse where
  success : Bool
  id_number : String
  name : String
  lastname : String
  error_message : String
deriving DecidableEq

/-- The response-population logic of `ExtractCinData` (lines 308-335):
fields from the extracted texts, `success` true exactly when at least one
of the three fields is a nonempty string, and the two failure diagnostics,
the second overriding the first when no detection passed the threshold. -/
def cin_finalize (detections : List CinDet) (texts : List (String × String)) : CinResponse :=
  let id_number := get_text texts ("id")
  let name := get_text texts ("name")
  let lastname := get_text texts ("lastname")
  if id_number ≠ "" ∨ name ≠ "" ∨ lastname ≠ "" then
    ⟨true, id_number, name, lastname, ""⟩
  else
    ⟨false, id_number, name, lastname,
     if detections.isEmpty then ("No relevant fields detected in the image.")
     else ("No information could be extracted, or all fields were empty after OCR.")⟩

/-- `ExtractCinData` from post-inference onward: build the detections,
extract per-field texts through the abstract OCR collaborator, and populate
the response. -/
def cin_post_ocr (m : List (ℤ × String)) (mt : CinMeta) (crop_size : IBox → ℕ)
    (ocr : CinDet → List String) (raws : List CinRaw) : CinResponse :=
  let detections := cin_build_detections m mt raws
  cin_finalize detections (cin_extract_texts crop_size ocr detections)

theorem pyInt_nonneg {q : ℚ} (h : 0 ≤ q) : 0 ≤ pyInt q := by
  unfold pyInt
  rw [if_pos h]
  exact Int.floor_nonneg.mpr h

theorem pyInt_le_int {q : ℚ} {n : ℤ} (h : q ≤ (n : ℚ)) : pyInt q ≤ n := by
  unfold pyInt
  split
  · calc ⌊q⌋ ≤ ⌊(n : ℚ)⌋ := Int.floor_mono h
      _ = n := Int.floor_intCast n
  · calc ⌈q⌉ ≤ ⌈(n : ℚ)⌉ := Int.ceil_mono h
      _ = n := Int.ceil_intCast n

/-- C2: whenever the stored scale is zero, all three inverse coordinate
mappings (`scale_coords_car`, `PlateDetectionServicer.scale_coords_car`,
`PlateDetectionServicer.scale_coords_plate`) return the degenerate zero-area
box `(0, 0, 0, 0)` through the early guard, so the division by the scale is
never reached and no exception is raised (the functions are total). -/
theorem claim_C2_zero_scale (m : CarMeta) (mp : PlateMeta) (x1 y1 x2 y2 p1 p2 p3 p4 : ℚ)
    (b : IBox) (hm : m.scale = 0) (hp : mp.scale = 0) :
    scale_coords_car x1 y1 x2 y2 m = ⟨0, 0, 0, 0⟩ ∧
    servicer_scale_coords_car b m = ⟨0, 0, 0, 0⟩ ∧
    servicer_scale_coords_plate p1 p2 p3 p4 mp = ⟨0, 0, 0, 0⟩ := by
  refine ⟨?_, ?_, ?_⟩ <;>
    simp [scale_coords_car, servicer_scale_coords_car, servicer_scale_coords_plate, hm, hp]

/-- Witness for C2 at a concrete zero-scale context and concrete boxes. -/
theorem claim_C2_witness :
    scale_coords_car 3 4 5 6 ⟨10, 10, 0, 2, 2⟩ = ⟨0, 0, 0, 0⟩ ∧
    servicer_scale_coords_car ⟨1, 2, 3, 4⟩ ⟨10, 10, 0, 2, 2⟩ = ⟨0, 0, 0, 0⟩ ∧
    servicer_scale_coords_plate 7 8 9 10 ⟨10, 10, 0, 2, 2⟩ = ⟨0, 0, 0, 0⟩ :=
  claim_C2_zero_scale ⟨10, 10, 0, 2, 2⟩ ⟨10, 10, 0, 2, 2⟩ 3 4 5 6 7 8 9 10 ⟨1, 2, 3, 4⟩ rfl rfl

/-- C6: handed an empty detection list, the sequence assembler produces the
pattern-unrecognized outcome — plate string `"Pattern Error"`, error flag
set, and a diagnostic embedding the (empty) observed class-name sequence —
and, being a total function, never raises; the resulting response is
unsuccessful under the `DetectPlate` success formula. -/
theorem claim_C6_empty_assembly :
    assemble_plate [] = ⟨"Pattern Error", true, "Unrecognized plate pattern: []"⟩ ∧
    detect_plate_success ("Pattern Error") (some ("Unrecognized plate pattern: []")) = false := by
  constructor
  · with_unfolding_all rfl
  · with_unfolding_all rfl

/-- C8 counterexample: the claim asserts every mapped coordinate is clamped
into `[0, original_dim]` on each axis; at scale 1 with zero padding in a
10-wide frame, the box `(20, 0, 25, 5)` maps to `x_min = 20 > 10`, because
`PlateDetectionServicer.scale_coords_car` clamps `x_min` only from below. -/
theorem claim_C8_counterexample :
    (0 : ℚ) < 1 ∧
    (servicer_scale_coords_car ⟨20, 0, 25, 5⟩ ⟨10, 10, (1 : ℚ), 0, 0⟩).x1 = 20 ∧
    ¬ (servicer_scale_coords_car ⟨20, 0, 25, 5⟩ ⟨10, 10, (1 : ℚ), 0, 0⟩).x1 ≤ 10 := by
  refine ⟨by norm_num, by with_unfolding_all rfl, ?_⟩
  have h : (servicer_scale_coords_car ⟨20, 0, 25, 5⟩ ⟨10, 10, (1 : ℚ), 0, 0⟩).x1 = 20 := by
    with_unfolding_all rfl
  rw [h]
  decide

/-- C8 amended: for every context with positive scale, the mappings apply
exactly the one-sided clamps present in the code: `0 ≤ x_min`, `0 ≤ y_min`,
`x_max ≤ original_width`, `y_max ≤ original_height` — both in
`PlateDetectionServicer.scale_coords_car` and in the CIN service's inline
box mapping.  (The other four bounds of the claim do not hold in general.) -/
theorem claim_C8_amended (m : CarMeta) (mt : CinMeta) (b : IBox) (x1 y1 x2 y2 : ℚ)
    (hm : 0 < m.scale) (_hmt : 0 < mt.scale) :
    (0 ≤ (servicer_scale_coords_car b m).x1 ∧ 0 ≤ (servicer_scale_coords_car b m).y1 ∧
      (servicer_scale_coords_car b m).x2 ≤ m.original_width ∧
      (servicer_scale_coords_car b m).y2 ≤ m.original_height) ∧
    (0 ≤ (cin_scale_box mt x1 y1 x2 y2).x1 ∧ 0 ≤ (cin_scale_box mt x1 y1 x2 y2).y1 ∧
      (cin_scale_box mt x1 y1 x2 y2).x2 ≤ mt.orig_w ∧
      (cin_scale_box mt x1 y1 x2 y2).y2 ≤ mt.orig_h) := by
  constructor
  · have h0 : ¬ m.scale = 0 := ne_of_gt hm
    simp only [servicer_scale_coords_car]
    rw [if_neg h0]
    exact ⟨le_max_left _ _, le_max_left _ _, min_le_left _ _, min_le_left _ _⟩
  · simp only [cin_scale_box]
    exact ⟨pyInt_nonneg (le_max_left _ _), pyInt_nonneg (le_max_left _ _),
      pyInt_le_int (min_le_left _ _), pyInt_le_int (min_le_left _ _)⟩

/-- Witness for the amended C8 at concrete contexts and boxes. -/
theorem claim_C8_witness :
    ((0 ≤ (servicer_scale_coords_car ⟨20, 0, 25, 5⟩ ⟨10, 10, (1 : ℚ), 0, 0⟩).x1 ∧
      0 ≤ (servicer_scale_coords_car ⟨20, 0, 25, 5⟩ ⟨10, 10, (1 : ℚ), 0, 0⟩).y1 ∧
      (servicer_scale_coords_car ⟨20, 0, 25, 5⟩ ⟨10, 10, (1 : ℚ), 0, 0⟩).x2 ≤ 10 ∧
      (servicer_scale_coords_car ⟨20, 0, 25, 5⟩ ⟨10, 10, (1 : ℚ), 0, 0⟩).y2 ≤ 10) ∧
     (0 ≤ (cin_scale_box ⟨8, 8, (2 : ℚ), 1, 1⟩ 3 4 5 6).x1 ∧
      0 ≤ (cin_scale_box ⟨8, 8, (2 : ℚ), 1, 1⟩ 3 4 5 6).y1 ∧
      (cin_scale_box ⟨8, 8, (2 : ℚ), 1, 1⟩ 3 4 5 6).x2 ≤ 8 ∧
      (cin_scale_box ⟨8, 8, (2 : ℚ), 1, 1⟩ 3 4 5 6).y2 ≤ 8)) :=
  claim_C8_amended ⟨10, 10, (1 : ℚ), 0, 0⟩ ⟨8, 8, (2 : ℚ), 1, 1⟩ ⟨20, 0, 25, 5⟩ 3 4 5 6
    (by norm_num) (by norm_num)

/-- C9 counterexample: the fallback label for an id absent from the map is
`"Label_7"` in the plate service and `"unknown_id_7"` in the CIN service —
neither is the `"unknown_7"` form the claim states for every variant. -/
theorem claim_C9_counterexample :
    plate_class_name [] 7 = "Label_7" ∧ plate_class_name [] 7 ≠ "unknown_7" ∧
    cin_class_name [] 7 = "unknown_id_7" ∧ cin_class_name [] 7 ≠ "unknown_7" := by
  have h1 : plate_class_name [] 7 = "Label_7" := by with_unfolding_all rfl
  have h2 : cin_class_name [] 7 = "unknown_id_7" := by with_unfolding_all rfl
  refine ⟨h1, ?_, h2, ?_⟩
  · rw [h1]; decide
  · rw [h2]; decide

/-- C9 amended: a class id absent from the loaded label map resolves to a
synthetic placeholder embedding the numeric id rather than failing:
`"unknown_id_<id>"` in the CIN extraction service and `"Label_<id>"` in the
plate detection service. -/
theorem claim_C9_amended (m : List (ℤ × String)) (k : ℤ) (h : lookup_label m k = none) :
    cin_class_name m k = "unknown_id_" ++ toString k ∧
    plate_class_name m k = "Label_" ++ toString k := by
  unfold cin_class_name plate_class_name
  rw [h]
  exact ⟨rfl, rfl⟩

/-- Witness for the amended C9 on the empty label map at id 7. -/
theorem claim_C9_witness :
    lookup_label [] 7 = none ∧
    (cin_class_name [] 7 = "unknown_id_" ++ toString (7 : ℤ) ∧
     plate_class_name [] 7 = "Label_" ++ toString (7 : ℤ)) :=
  ⟨rfl, claim_C9_amended [] 7 rfl⟩

theorem stage1_fold_spec (cs : IBox → ℕ) (m : CarMeta) :
    ∀ (l : List Det1) (acc : Option Det1),
      (List.foldl (stage1_step cs m) acc l = acc ∧
        ∀ x ∈ l, passes_car cs m x = true → x.conf ≤ max_conf1 acc) ∨
      (∃ l1 d l2, l = l1 ++ d :: l2 ∧ List.foldl (stage1_step cs m) acc l = some d ∧
        passes_car cs m d = true ∧ max_conf1 acc < d.conf ∧
        (∀ x ∈ l1, passes_car cs m x = true → x.conf < d.conf) ∧
        (∀ x ∈ l2, passes_car cs m x = true → x.conf ≤ d.conf)) := by
  intro l
  induction l with
  | nil =>
    intro acc
    left
    exact ⟨rfl, by intro x hx; cases hx⟩
  | cons a rest ih =>
    intro acc
    by_cases ha : (passes_car cs m a && decide (max_conf1 acc < a.conf)) = true
    · have hstep : stage1_step cs m acc a = some a := by
        unfold stage1_step
        rw [if_pos ha]
      have hsplit : passes_car cs m a = true ∧ max_conf1 acc < a.conf := by
        simpa only [Bool.and_eq_true, decide_eq_true_eq] using ha
      have hpa : passes_car cs m a = true := hsplit.1
      have hlt : max_conf1 acc < a.conf := hsplit.2
      have hfold : List.foldl (stage1_step cs m) acc (a :: rest)
          = List.foldl (stage1_step cs m) (some a) rest := by
        rw [List.foldl_cons, hstep]
      rcases ih (some a) with ⟨heq, hall⟩ | ⟨l1, d, l2, hsp, hres, hpd, hgt, h1, h2⟩
      · right
        refine ⟨[], a, rest, by simp, ?_, hpa, hlt, by simp, ?_⟩
        · rw [hfold, heq]
        · intro x hx hpx
          exact hall x hx hpx
      · right
        refine ⟨a :: l1, d, l2, by rw [hsp, List.cons_append], ?_, hpd, lt_trans hlt hgt, ?_, h2⟩
        · rw [hfold, hres]
        · intro x hx hpx
          rcases List.mem_cons.mp hx with hxa | hx1
          · rw [hxa]
            exact hgt
          · exact h1 x hx1 hpx
    · have hstep : stage1_step cs m acc a = acc := by
        unfold stage1_step
        rw [if_neg (by exact fun hc => ha hc)]
      have hfold : List.foldl (stage1_step cs m) acc (a :: rest)
          = List.foldl (stage1_step cs m) acc rest := by
        rw [List.foldl_cons, hstep]
      have hnota : passes_car cs m a = true → a.conf ≤ max_conf1 acc := by
        intro hpa
        by_contra hc
        exact ha (by rw [hpa, decide_eq_true (lt_of_not_le hc)]; rfl)
      rcases ih acc with ⟨heq, hall⟩ | ⟨l1, d, l2, hsp, hres, hpd, hgt, h1, h2⟩
      · left
        constructor
        · rw [hfold, heq]
        · intro x hx hpx
          rcases List.mem_cons.mp hx with hxa | hx1
          · rw [hxa]
            exact hnota (hxa ▸ hpx)
          · exact hall x hx1 hpx
      · right
        refine ⟨a :: l1, d, l2, by rw [hsp, List.cons_append], by rw [hfold, hres], hpd, hgt,
          ?_, h2⟩
        intro x hx hpx
        rcases List.mem_cons.mp hx with hxa | hx1
        · rw [hxa]
          exact lt_of_le_of_lt (hnota (hxa ▸ hpx)) hgt
        · exact h1 x hx1 hpx

theorem stage1_select_spec (cs : IBox → ℕ) (m : CarMeta) (l : List Det1) (d : Det1)
    (h : stage1_select cs m l = some d) :
    passes_car cs m d = true ∧ (0 : ℚ) < d.conf ∧
    ∃ l1 l2, l = l1 ++ d :: l2 ∧
      (∀ x ∈ l1, passes_car cs m x = true → x.conf < d.conf) ∧
      (∀ x ∈ l2, passes_car cs m x = true → x.conf ≤ d.conf) := by
  rcases stage1_fold_spec cs m l none with ⟨heq, _⟩ | ⟨l1, d0, l2, hsp, hres, hpd, hgt, h1, h2⟩
  · rw [stage1_select, heq] at h
    cases h
  · rw [stage1_select, hres] at h
    have hd : d0 = d := Option.some.inj h
    subst hd
    exact ⟨hpd, hgt, l1, l2, hsp, h1, h2⟩

/-- C3 counterexample: a stage-1 detection whose confidence equals the
threshold 0.53 exactly, with a valid mapped box and a nonempty crop, is
discarded (the loop tests `confidence > threshold`, strictly), so the
best-single selection over the singleton list keeps nothing — the claim
says it would be retained. -/
theorem claim_C3_counterexample :
    (⟨0, 0, 5, 5, (53 : ℚ)/100⟩ : Det1).conf = CAR_CONFIDENCE_THRESHOLD ∧
    map_car_det ⟨10, 10, 1, 0, 0⟩ ⟨0, 0, 5, 5, (53 : ℚ)/100⟩ = ⟨0, 0, 5, 5⟩ ∧
    stage1_select (fun _ => 1) ⟨10, 10, 1, 0, 0⟩ [⟨0, 0, 5, 5, (53 : ℚ)/100⟩] = none := by
  refine ⟨by with_unfolding_all rfl, by with_unfolding_all rfl, by with_unfolding_all rfl⟩

/-- C3 amended: a stage-1 detection kept by the best-single selection
passed all the loop's tests — in particular its confidence is strictly
above the 0.53 threshold (a detection exactly at the threshold is
discarded) — and it is the maximum-confidence passing detection, ties
broken in favor of the earliest-encountered one: every passing detection
before it in input order has strictly smaller confidence, and every passing
detection after it has smaller-or-equal confidence. -/
theorem claim_C3_amended (cs : IBox → ℕ) (m : CarMeta) (l : List Det1) (d : Det1)
    (h : stage1_select cs m l = some d) :
    passes_car cs m d = true ∧ CAR_CONFIDENCE_THRESHOLD < d.conf ∧
    ∃ l1 l2, l = l1 ++ d :: l2 ∧
      (∀ x ∈ l1, passes_car cs m x = true → x.conf < d.conf) ∧
      (∀ x ∈ l2, passes_car cs m x = true → x.conf ≤ d.conf) := by
  rcases stage1_select_spec cs m l d h with ⟨hpd, _, l1, l2, hsp, h1, h2⟩
  have hth : CAR_CONFIDENCE_THRESHOLD < d.conf := by
    have := hpd
    simp only [passes_car, Bool.and_eq_true, decide_eq_true_eq] at this
    exact this.1.1.1
  exact ⟨hpd, hth, l1, l2, hsp, h1, h2⟩

/-- Witness for the amended C3: between two passing detections of equal
confidence 0.6, the selection keeps the first. -/
theorem claim_C3_witness :
    stage1_select (fun _ => 1) ⟨10, 10, 1, 0, 0⟩
        [⟨0, 0, 5, 5, (6 : ℚ)/10⟩, ⟨1, 1, 6, 6, (6 : ℚ)/10⟩]
      = some ⟨0, 0, 5, 5, (6 : ℚ)/10⟩ ∧
    (passes_car (fun _ => 1) ⟨10, 10, 1, 0, 0⟩ ⟨0, 0, 5, 5, (6 : ℚ)/10⟩ = true ∧
     CAR_CONFIDENCE_THRESHOLD < (⟨0, 0, 5, 5, (6 : ℚ)/10⟩ : Det1).conf ∧
     ∃ l1 l2, [(⟨0, 0, 5, 5, (6 : ℚ)/10⟩ : Det1), ⟨1, 1, 6, 6, (6 : ℚ)/10⟩]
         = l1 ++ (⟨0, 0, 5, 5, (6 : ℚ)/10⟩ : Det1) :: l2 ∧
       (∀ x ∈ l1, passes_car (fun _ => 1) ⟨10, 10, 1, 0, 0⟩ x = true →
         x.conf < (⟨0, 0, 5, 5, (6 : ℚ)/10⟩ : Det1).conf) ∧
       (∀ x ∈ l2, passes_car (fun _ => 1) ⟨10, 10, 1, 0, 0⟩ x = true →
         x.conf ≤ (⟨0, 0, 5, 5, (6 : ℚ)/10⟩ : Det1).conf)) :=
  ⟨by with_unfolding_all rfl,
   claim_C3_amended (fun _ => 1) ⟨10, 10, 1, 0, 0⟩
     [⟨0, 0, 5, 5, (6 : ℚ)/10⟩, ⟨1, 1, 6, 6, (6 : ℚ)/10⟩] ⟨0, 0, 5, 5, (6 : ℚ)/10⟩
     (by with_unfolding_all rfl)⟩

theorem stage2_fold_mem (cm : List (ℤ × String)) (mp : PlateMeta) :
    ∀ (l : List Det2) (acc : List MDet2 × ℚ × ℕ) (md : MDet2),
      md ∈ (List.foldl (stage2_step cm mp) acc l).1 →
      md ∈ acc.1 ∨ (md.x1 < md.x2 ∧ md.y1 < md.y2) := by
  intro l
  induction l with
  | nil =>
    intro acc md h
    exact Or.inl h
  | cons a rest ih =>
    intro acc md h
    rw [List.foldl_cons] at h
    rcases ih (stage2_step cm mp acc a) md h with hin | hval
    · unfold stage2_step at hin
      by_cases hk : stage2_keeps cm mp a = true
      · rw [if_pos hk] at hin
        rcases List.mem_append.mp hin with hacc | hnew
        · exact Or.inl hacc
        · right
          have hmd : md = stage2_detection cm mp a := List.mem_singleton.mp hnew
          have hks := hk
          simp only [stage2_keeps, Bool.and_eq_true, decide_eq_true_eq] at hks
          rw [hmd]
          exact ⟨hks.1.2, hks.2⟩
      · rw [if_neg hk] at hin
        exact Or.inl hin
    · exact Or.inr hval

/-- C4: under both selection policies no detection with a degenerate mapped
box is ever retained.  Stage 1 (best-single): a selected detection's mapped
box has `x_min < x_max` and `y_min < y_max`.  Stage 2 (retain-all-valid):
every entry of `relevant_detections` has `x1 < x2` and `y1 < y2`. -/
theorem claim_C4_valid_boxes :
    (∀ (cs : IBox → ℕ) (m : CarMeta) (l : List Det1) (d : Det1),
      stage1_select cs m l = some d →
      (map_car_det m d).x1 < (map_car_det m d).x2 ∧
        (map_car_det m d).y1 < (map_car_det m d).y2) ∧
    (∀ (cm : List (ℤ × String)) (mp : PlateMeta) (l : List Det2) (md : MDet2),
      md ∈ (stage2_filter cm mp l).1 → md.x1 < md.x2 ∧ md.y1 < md.y2) := by
  constructor
  · intro cs m l d h
    have hpd := (stage1_select_spec cs m l d h).1
    simp only [passes_car, Bool.and_eq_true, decide_eq_true_eq] at hpd
    exact ⟨hpd.1.1.2, hpd.1.2⟩
  · intro cm mp l md h
    rcases stage2_fold_mem cm mp l ([], 0, 0) md h with hin | hval
    · cases hin
    · exact hval

/-- Witness for C4 at concrete inputs for both policies. -/
theorem claim_C4_witness :
    ((map_car_det ⟨10, 10, 1, 0, 0⟩ ⟨0, 0, 5, 5, (6 : ℚ)/10⟩).x1
        < (map_car_det ⟨10, 10, 1, 0, 0⟩ ⟨0, 0, 5, 5, (6 : ℚ)/10⟩).x2 ∧
      (map_car_det ⟨10, 10, 1, 0, 0⟩ ⟨0, 0, 5, 5, (6 : ℚ)/10⟩).y1
        < (map_car_det ⟨10, 10, 1, 0, 0⟩ ⟨0, 0, 5, 5, (6 : ℚ)/10⟩).y2) ∧
    ((⟨0, 0, 5, 5, "num", (6 : ℚ)/10, none⟩ : MDet2).x1
        < (⟨0, 0, 5, 5, "num", (6 : ℚ)/10, none⟩ : MDet2).x2 ∧
      (⟨0, 0, 5, 5, "num", (6 : ℚ)/10, none⟩ : MDet2).y1
        < (⟨0, 0, 5, 5, "num", (6 : ℚ)/10, none⟩ : MDet2).y2) :=
  ⟨claim_C4_valid_boxes.1 (fun _ => 1) ⟨10, 10, 1, 0, 0⟩ [⟨0, 0, 5, 5, (6 : ℚ)/10⟩]
      ⟨0, 0, 5, 5, (6 : ℚ)/10⟩ (by with_unfolding_all rfl),
   claim_C4_valid_boxes.2 [(0, "num")] ⟨10, 10, 1, 0, 0⟩ [⟨0, 0, 5, 5, (6 : ℚ)/10, 0⟩]
      ⟨0, 0, 5, 5, "num", (6 : ℚ)/10, none⟩
      (by with_unfolding_all exact List.mem_singleton.mpr rfl)⟩

theorem stage2_fold_sum (cm : List (ℤ × String)) (mp : PlateMeta) :
    ∀ (l : List Det2) (acc : List MDet2 × ℚ × ℕ),
      acc.2.1 = (acc.1.map MDet2.confidence).sum → acc.2.2 = acc.1.length →
      (List.foldl (stage2_step cm mp) acc l).2.1
          = (((List.foldl (stage2_step cm mp) acc l).1).map MDet2.confidence).sum ∧
        (List.foldl (stage2_step cm mp) acc l).2.2
          = ((List.foldl (stage2_step cm mp) acc l).1).length := by
  intro l
  induction l with
  | nil =>
    intro acc h1 h2
    exact ⟨h1, h2⟩
  | cons a rest ih =>
    intro acc h1 h2
    rw [List.foldl_cons]
    refine ih (stage2_step cm mp acc a) ?_ ?_
    · unfold stage2_step
      by_cases hk : stage2_keeps cm mp a = true
      · rw [if_pos hk]
        simp only [List.map_append, List.sum_append, List.map_cons, List.map_nil,
          List.sum_cons, List.sum_nil]
        rw [h1]
        have hconf : (stage2_detection cm mp a).confidence = a.conf := rfl
        rw [hconf]
        ring
      · rw [if_neg hk]
        exact h1
    · unfold stage2_step
      by_cases hk : stage2_keeps cm mp a = true
      · rw [if_pos hk]
        simp only [List.length_append, List.length_cons, List.length_nil]
        rw [h2]
      · rw [if_neg hk]
        exact h2

/-- C5: when at least one stage-2 detection is retained, the confidence
returned by the pipeline equals the arithmetic mean of the best stage-1
confidence and the mean confidence over the retained stage-2 detections,
and is the same for every OCR collaborator — no OCR value enters it. -/
theorem claim_C5_confidence (ocr : MDet2 → String) (max_confidence_stage1 : ℚ)
    (cm : List (ℤ × String)) (mp : PlateMeta) (dets : List Det2)
    (h : (stage2_filter cm mp dets).1 ≠ []) :
    (perform_stage2 ocr max_confidence_stage1 cm mp dets).confidence
      = (max_confidence_stage1
          + (((stage2_filter cm mp dets).1).map MDet2.confidence).sum
              / (((stage2_filter cm mp dets).1).length : ℚ)) / 2 := by
  have hspec : (stage2_filter cm mp dets).2.1
        = (((stage2_filter cm mp dets).1).map MDet2.confidence).sum ∧
      (stage2_filter cm mp dets).2.2 = ((stage2_filter cm mp dets).1).length :=
    stage2_fold_sum cm mp dets ([], 0, 0) rfl rfl
  have hne : ((stage2_filter cm mp dets).1).isEmpty = false := by
    rcases hl : (stage2_filter cm mp dets).1 with _ | ⟨x, xs⟩
    · exact absurd hl h
    · rfl
  have hpos : 0 < ((stage2_filter cm mp dets).1).length := List.length_pos.mpr h
  unfold perform_stage2
  simp only [hne, Bool.false_eq_true, if_false, hspec.1, hspec.2, if_pos hpos]

/-- Witness for C5: one retained detection of confidence 0.6 and stage-1
confidence 0.5 give `(0.5 + 0.6/1)/2`. -/
theorem claim_C5_witness :
    (stage2_filter [(0, "num")] ⟨10, 10, 1, 0, 0⟩ [⟨0, 0, 5, 5, (6 : ℚ)/10, 0⟩]).1 ≠ [] ∧
    (perform_stage2 (fun _ => "12") ((1 : ℚ)/2) [(0, "num")] ⟨10, 10, 1, 0, 0⟩
        [⟨0, 0, 5, 5, (6 : ℚ)/10, 0⟩]).confidence
      = ((1 : ℚ)/2
          + (((stage2_filter [(0, "num")] ⟨10, 10, 1, 0, 0⟩
                [⟨0, 0, 5, 5, (6 : ℚ)/10, 0⟩]).1).map MDet2.confidence).sum
              / (((stage2_filter [(0, "num")] ⟨10, 10, 1, 0, 0⟩
                    [⟨0, 0, 5, 5, (6 : ℚ)/10, 0⟩]).1).length : ℚ)) / 2 :=
  ⟨by with_unfolding_all exact fun hc => List.noConfusion hc,
   claim_C5_confidence (fun _ => "12") ((1 : ℚ)/2) [(0, "num")] ⟨10, 10, 1, 0, 0⟩
     [⟨0, 0, 5, 5, (6 : ℚ)/10, 0⟩]
     (by with_unfolding_all exact fun hc => List.noConfusion hc)⟩

/-- C7: `detect_and_correct_rotation` returns its input unchanged whenever
(a) the input is `None`, (b) the input has zero size, (c) contour detection
finds no contours, (d) the normalized estimated angle is inside the 2.0°
dead zone, or (e) any internal step raises — and, being a total function of
its abstract OpenCV collaborators, it never raises or aborts the pipeline. -/
theorem claim_C7_rotation_safe {Img Bin Contour : Type} (ops : CvOps Img Bin Contour) :
    (detect_and_correct_rotation ops none = none) ∧
    (∀ img : Img, ops.size img = 0 → detect_and_correct_rotation ops (some img) = some img) ∧
    (∀ (img : Img) (bin : Bin), ops.to_binary img = Except.ok bin →
      ops.find_contours bin = Except.ok [] →
      detect_and_correct_rotation ops (some img) = some img) ∧
    (∀ (img : Img) (bin : Bin) (c0 : Contour) (rest : List Contour) (raw : ℚ),
      ops.to_binary img = Except.ok bin →
      ops.find_contours bin = Except.ok (c0 :: rest) →
      ops.min_area_rect_angle (py_max_by ops.contour_area c0 rest) = Except.ok raw →
      |norm_angle raw| < ANGLE_THRESHOLD →
      detect_and_correct_rotation ops (some img) = some img) ∧
    (∀ (img : Img) (e : Unit), rotation_core ops img = Except.error e →
      detect_and_correct_rotation ops (some img) = some img) := by
  refine ⟨rfl, ?_, ?_, ?_, ?_⟩
  · intro img hsz
    show (if ops.size img = 0 then some img
      else match rotation_core ops img with
        | Except.ok r => some r
        | Except.error _ => some img) = some img
    rw [if_pos hsz]
  · intro img bin hbin hcon
    have hcore : rotation_core ops img = Except.ok img := by
      simp only [rotation_core, hbin, hcon]
    show (if ops.size img = 0 then some img
      else match rotation_core ops img with
        | Except.ok r => some r
        | Except.error _ => some img) = some img
    rw [hcore]
    by_cases hsz : ops.size img = 0
    · rw [if_pos hsz]
    · rw [if_neg hsz]
  · intro img bin c0 rest raw hbin hcon hangle hdead
    have hcore : rotation_core ops img = Except.ok img := by
      simp only [rotation_core, hbin, hcon, hangle, if_pos hdead]
    show (if ops.size img = 0 then some img
      else match rotation_core ops img with
        | Except.ok r => some r
        | Except.error _ => some img) = some img
    rw [hcore]
    by_cases hsz : ops.size img = 0
    · rw [if_pos hsz]
    · rw [if_neg hsz]
  · intro img e hcore
    show (if ops.size img = 0 then some img
      else match rotation_core ops img with
        | Except.ok r => some r
        | Except.error _ => some img) = some img
    rw [hcore]
    by_cases hsz : ops.size img = 0
    · rw [if_pos hsz]
    · rw [if_neg hsz]

/-- Witness for C7: a concrete collaborator bundle over `ℕ` images where
thresholding succeeds and no contours are found. -/
theorem claim_C7_witness :
    detect_and_correct_rotation
        (⟨fun _ => 1, fun _ => Except.ok 0, fun _ => Except.ok [], fun _ => 0,
          fun _ => Except.ok 0, fun i _ => Except.ok i⟩ : CvOps ℕ ℕ ℕ) (some 5) = some 5 :=
  (claim_C7_rotation_safe
      (⟨fun _ => 1, fun _ => Except.ok 0, fun _ => Except.ok [], fun _ => 0,
        fun _ => Except.ok 0, fun i _ => Except.ok i⟩ : CvOps ℕ ℕ ℕ)).2.2.1 5 0 rfl rfl

theorem cin_build_detections_nil (m : List (ℤ × String)) (mt : CinMeta) (raws : List CinRaw)
    (h : ∀ r ∈ raws, r.conf < CONFIDENCE_THRESHOLD) :
    cin_build_detections m mt raws = [] := by
  have key : ∀ (l : List CinRaw) (acc : List CinDet),
      (∀ r ∈ l, r.conf < CONFIDENCE_THRESHOLD) →
      l.foldl
          (fun acc r =>
            if CONFIDENCE_THRESHOLD ≤ r.conf then acc ++ [cin_detection m mt r] else acc)
          acc = acc := by
    intro l
    induction l with
    | nil =>
      intro acc _
      rfl
    | cons a rest ih =>
      intro acc hall
      rw [List.foldl_cons, if_neg (not_le.mpr (hall a (List.mem_cons_self a rest)))]
      exact ih acc (fun r hr => hall r (List.mem_cons_of_mem a hr))
  exact key raws [] h

/-- C10: for every request that reaches the post-OCR response population,
`success` is true exactly when at least one of the three extracted fields
is nonempty; when all three are empty the response is unsuccessful and
carries a diagnostic, which is the distinct message
`"No relevant fields detected in the image."` precisely when the detection
list (rows at or above the confidence threshold) is empty — in particular
whenever no raw detection passed the threshold. -/
theorem claim_C10_success_iff (m : List (ℤ × String)) (mt : CinMeta) (crop_size : IBox → ℕ)
    (ocr : CinDet → List String) (raws : List CinRaw) :
    ((cin_post_ocr m mt crop_size ocr raws).success = true ↔
      ((cin_post_ocr m mt crop_size ocr raws).id_number ≠ "" ∨
        (cin_post_ocr m mt crop_size ocr raws).name ≠ "" ∨
        (cin_post_ocr m mt crop_size ocr raws).lastname ≠ "")) ∧
    ((cin_post_ocr m mt crop_size ocr raws).id_number = "" →
      (cin_post_ocr m mt crop_size ocr raws).name = "" →
      (cin_post_ocr m mt crop_size ocr raws).lastname = "" →
      (cin_post_ocr m mt crop_size ocr raws).success = false ∧
      (cin_post_ocr m mt crop_size ocr raws).error_message
        = (if (cin_build_detections m mt raws).isEmpty
            then ("No relevant fields detected in the image.")
            else ("No information could be extracted, or all fields were empty after OCR."))) ∧
    ((∀ r ∈ raws, r.conf < CONFIDENCE_THRESHOLD) →
      (cin_post_ocr m mt crop_size ocr raws).success = false ∧
      (cin_post_ocr m mt crop_size ocr raws).error_message
        = "No relevant fields detected in the image.") := by
  have hbody : cin_post_ocr m mt crop_size ocr raws
      = cin_finalize (cin_build_detections m mt raws)
          (cin_extract_texts crop_size ocr (cin_build_detections m mt raws)) := rfl
  rw [hbody]
  set dets := cin_build_detections m mt raws with hdets
  set texts := cin_extract_texts crop_size ocr dets with htexts
  by_cases hc : get_text texts ("id") ≠ "" ∨ get_text texts ("name") ≠ ""
      ∨ get_text texts ("lastname") ≠ ""
  · have hfin : cin_finalize dets texts
        = ⟨true, get_text texts ("id"), get_text texts ("name"),
           get_text texts ("lastname"), ""⟩ := by
      unfold cin_finalize
      rw [if_pos hc]
    rw [hfin]
    refine ⟨by simpa using hc, ?_, ?_⟩
    · intro h1 h2 h3
      exact absurd hc (by simp only [ne_eq, not_or, not_not]; exact ⟨h1, h2, h3⟩)
    · intro hall
      have hnil : dets = [] := cin_build_detections_nil m mt raws hall
      have htnil : texts = [] := by rw [htexts, hnil]; rfl
      exact absurd hc (by simp [get_text, htnil])
  · have hfin : cin_finalize dets texts
        = ⟨false, get_text texts ("id"), get_text texts ("name"),
           get_text texts ("lastname"),
           if dets.isEmpty then ("No relevant fields detected in the image.")
           else ("No information could be extracted, or all fields were empty after OCR.")⟩ := by
      unfold cin_finalize
      rw [if_neg hc]
    rw [hfin]
    refine ⟨by simpa using hc, fun _ _ _ => ⟨rfl, rfl⟩, ?_⟩
    · intro hall
      have hnil : dets = [] := cin_build_detections_nil m mt raws hall
      refine ⟨rfl, ?_⟩
      rw [hnil]
      rfl

/-- Witness for C10 on an empty raw-detection list. -/
theorem claim_C10_witness :
    ((cin_post_ocr [] ⟨10, 10, 1, 0, 0⟩ (fun _ => 1) (fun _ => []) []).success = false ∧
     (cin_post_ocr [] ⟨10, 10, 1, 0, 0⟩ (fun _ => 1) (fun _ => []) []).error_message
       = "No relevant fields detected in the image.") :=
  (claim_C10_success_iff [] ⟨10, 10, 1, 0, 0⟩ (fun _ => 1) (fun _ => []) []).2.2
    (by intro r hr; cases hr)

theorem pyRound_le (q : ℚ) : ((pyRound q : ℤ) : ℚ) ≤ q + 1/2 := by
  unfold pyRound
  split
  case isTrue h =>
    have hfq : ((⌊q⌋ : ℤ) : ℚ) = q - 1/2 := by
      rw [← Int.self_sub_fract q, h]
    split
    case isTrue _ => linarith
    case isFalse _ => push_cast; linarith
  case isFalse h =>
    have habs := abs_sub_round q
    have h2 := (abs_le.mp habs).1
    have h3 := (abs_le.mp habs).2
    linarith

theorem letterbox_coord (s : ℚ) (Wd pad x : ℤ) (hs : 0 < s) (hWd : 0 ≤ Wd)
    (hl : pad ≤ x) (hu : x ≤ pad + pyRound ((Wd : ℚ) * s)) :
    (x : ℚ) - (s + 1/2)
        < ((pyInt (max 0 (min (((x : ℚ) - (pad : ℚ)) / s) (Wd : ℚ))) : ℤ) : ℚ) * s + (pad : ℚ) ∧
    ((pyInt (max 0 (min (((x : ℚ) - (pad : ℚ)) / s) (Wd : ℚ))) : ℤ) : ℚ) * s + (pad : ℚ)
        ≤ (x : ℚ) := by
  have hu0 : (0 : ℚ) ≤ (x : ℚ) - (pad : ℚ) := by
    have hlq : (pad : ℚ) ≤ (x : ℚ) := by exact_mod_cast hl
    linarith
  have hub : (x : ℚ) - (pad : ℚ) ≤ ((pyRound ((Wd : ℚ) * s) : ℤ) : ℚ) := by
    have huq : (x : ℚ) ≤ (pad : ℚ) + ((pyRound ((Wd : ℚ) * s) : ℤ) : ℚ) := by
      exact_mod_cast hu
    linarith
  set u : ℚ := (x : ℚ) - (pad : ℚ) with hu_def
  have hv0 : 0 ≤ u / s := div_nonneg hu0 hs.le
  have hW0 : (0 : ℚ) ≤ (Wd : ℚ) := by exact_mod_cast hWd
  have hmax : max 0 (min (u / s) (Wd : ℚ)) = min (u / s) (Wd : ℚ) :=
    max_eq_right (le_min hv0 hW0)
  rw [hmax]
  by_cases hc : u / s ≤ (Wd : ℚ)
  · rw [min_eq_left hc]
    have hfl : pyInt (u / s) = ⌊u / s⌋ := by
      unfold pyInt
      rw [if_pos hv0]
    rw [hfl]
    have hle : ((⌊u / s⌋ : ℤ) : ℚ) ≤ u / s := Int.floor_le _
    have hgt : u / s - 1 < ((⌊u / s⌋ : ℤ) : ℚ) := Int.sub_one_lt_floor _
    have hmul1 : ((⌊u / s⌋ : ℤ) : ℚ) * s ≤ (u / s) * s := mul_le_mul_of_nonneg_right hle hs.le
    have hmul2 : (u / s - 1) * s < ((⌊u / s⌋ : ℤ) : ℚ) * s := mul_lt_mul_of_pos_right hgt hs
    have hcancel : (u / s) * s = u := div_mul_cancel₀ u (ne_of_gt hs)
    have hexp : (u / s - 1) * s = u - s := by
      rw [sub_mul, hcancel, one_mul]
    constructor
    · rw [hexp] at hmul2
      linarith
    · rw [hcancel] at hmul1
      linarith
  · push_neg at hc
    rw [min_eq_right hc.le]
    have hfl : pyInt ((Wd : ℤ) : ℚ) = Wd := by
      unfold pyInt
      rw [if_pos hW0]
      exact Int.floor_intCast Wd
    rw [hfl]
    have hrle : ((pyRound ((Wd : ℚ) * s) : ℤ) : ℚ) ≤ (Wd : ℚ) * s + 1/2 := pyRound_le _
    have hlt : (Wd : ℚ) * s < (u / s) * s := mul_lt_mul_of_pos_right hc hs
    have hcancel : (u / s) * s = u := div_mul_cancel₀ u (ne_of_gt hs)
    rw [hcancel] at hlt
    constructor
    · linarith
    · linarith

/-- C1: for a scaling context built by `preprocess_image_car`'s letterbox
construction on a positive-size image (so its scale is positive), a box in
model/padded space whose corners lie inside the padded-content region maps
through `scale_coords_car` to reference space and back through the forward
letterbox mapping (`· scale + pad`) onto the original box up to rounding:
each forward-mapped coordinate lies in
`(original − (scale + 1/2), original]` — the `scale` slack is the
model-space size of one reference-space integer step introduced by
`int(...)`, and the extra `1/2` comes from rounding the resized dimensions. -/
theorem claim_C1_roundtrip (H W th tw : ℤ) (mt : CarMeta) (nh nw : ℤ) (x1 y1 x2 y2 : ℤ)
    (hH : 0 < H) (hW : 0 < W) (hth : 0 < th) (htw : 0 < tw)
    (hm : preprocess_image_car_meta H W th tw = ⟨mt, nh, nw⟩)
    (h1 : mt.pad_left ≤ x1) (h2 : x1 ≤ mt.pad_left + nw)
    (h3 : mt.pad_top ≤ y1) (h4 : y1 ≤ mt.pad_top + nh)
    (h5 : mt.pad_left ≤ x2) (h6 : x2 ≤ mt.pad_left + nw)
    (h7 : mt.pad_top ≤ y2) (h8 : y2 ≤ mt.pad_top + nh) :
    ((x1 : ℚ) - (mt.scale + 1/2)
        < to_model_x mt (scale_coords_car (x1 : ℚ) (y1 : ℚ) (x2 : ℚ) (y2 : ℚ) mt).x1 ∧
      to_model_x mt (scale_coords_car (x1 : ℚ) (y1 : ℚ) (x2 : ℚ) (y2 : ℚ) mt).x1 ≤ (x1 : ℚ)) ∧
    ((y1 : ℚ) - (mt.scale + 1/2)
        < to_model_y mt (scale_coords_car (x1 : ℚ) (y1 : ℚ) (x2 : ℚ) (y2 : ℚ) mt).y1 ∧
      to_model_y mt (scale_coords_car (x1 : ℚ) (y1 : ℚ) (x2 : ℚ) (y2 : ℚ) mt).y1 ≤ (y1 : ℚ)) ∧
    ((x2 : ℚ) - (mt.scale + 1/2)
        < to_model_x mt (scale_coords_car (x1 : ℚ) (y1 : ℚ) (x2 : ℚ) (y2 : ℚ) mt).x2 ∧
      to_model_x mt (scale_coords_car (x1 : ℚ) (y1 : ℚ) (x2 : ℚ) (y2 : ℚ) mt).x2 ≤ (x2 : ℚ)) ∧
    ((y2 : ℚ) - (mt.scale + 1/2)
        < to_model_y mt (scale_coords_car (x1 : ℚ) (y1 : ℚ) (x2 : ℚ) (y2 : ℚ) mt).y2 ∧
      to_model_y mt (scale_coords_car (x1 : ℚ) (y1 : ℚ) (x2 : ℚ) (y2 : ℚ) mt).y2 ≤ (y2 : ℚ)) := by
  have hmeta : (preprocess_image_car_meta H W th tw).meta = mt := by rw [hm]
  have hsc : mt.scale = min ((th : ℚ) / (H : ℚ)) ((tw : ℚ) / (W : ℚ)) := by
    rw [← hmeta]
    with_unfolding_all rfl
  have hWm : mt.original_width = W := by
    rw [← hmeta]
    with_unfolding_all rfl
  have hHm : mt.original_height = H := by
    rw [← hmeta]
    with_unfolding_all rfl
  have hspos : 0 < mt.scale := by
    rw [hsc]
    have a1 : (0 : ℚ) < (th : ℚ) / (H : ℚ) :=
      div_pos (by exact_mod_cast hth) (by exact_mod_cast hH)
    have a2 : (0 : ℚ) < (tw : ℚ) / (W : ℚ) :=
      div_pos (by exact_mod_cast htw) (by exact_mod_cast hW)
    exact lt_min a1 a2
  have hnw : nw = pyRound ((W : ℚ) * mt.scale) := by
    have hp : (preprocess_image_car_meta H W th tw).new_width = nw :=
      congrArg CarPrep.new_width hm
    rw [← hp, hsc]
    with_unfolding_all rfl
  have hnh : nh = pyRound ((H : ℚ) * mt.scale) := by
    have hp : (preprocess_image_car_meta H W th tw).new_height = nh :=
      congrArg CarPrep.new_height hm
    rw [← hp, hsc]
    with_unfolding_all rfl
  have hbx1 : (scale_coords_car (x1 : ℚ) (y1 : ℚ) (x2 : ℚ) (y2 : ℚ) mt).x1
      = pyInt (max 0 (min (((x1 : ℚ) - (mt.pad_left : ℚ)) / mt.scale) ((W : ℤ) : ℚ))) := by
    simp only [scale_coords_car]
    rw [if_neg (ne_of_gt hspos), hWm]
  have hby1 : (scale_coords_car (x1 : ℚ) (y1 : ℚ) (x2 : ℚ) (y2 : ℚ) mt).y1
      = pyInt (max 0 (min (((y1 : ℚ) - (mt.pad_top : ℚ)) / mt.scale) ((H : ℤ) : ℚ))) := by
    simp only [scale_coords_car]
    rw [if_neg (ne_of_gt hspos), hHm]
  have hbx2 : (scale_coords_car (x1 : ℚ) (y1 : ℚ) (x2 : ℚ) (y2 : ℚ) mt).x2
      = pyInt (max 0 (min (((x2 : ℚ) - (mt.pad_left : ℚ)) / mt.scale) ((W : ℤ) : ℚ))) := by
    simp only [scale_coords_car]
    rw [if_neg (ne_of_gt hspos), hWm]
  have hby2 : (scale_coords_car (x1 : ℚ) (y1 : ℚ) (x2 : ℚ) (y2 : ℚ) mt).y2
      = pyInt (max 0 (min (((y2 : ℚ) - (mt.pad_top : ℚ)) / mt.scale) ((H : ℤ) : ℚ))) := by
    simp only [scale_coords_car]
    rw [if_neg (ne_of_gt hspos), hHm]
  refine ⟨?_, ?_, ?_, ?_⟩
  · have hc := letterbox_coord mt.scale W mt.pad_left x1 hspos (le_of_lt hW) h1
      (by rw [← hnw]; exact h2)
    rw [to_model_x, hbx1]
    exact hc
  · have hc := letterbox_coord mt.scale H mt.pad_top y1 hspos (le_of_lt hH) h3
      (by rw [← hnh]; exact h4)
    rw [to_model_y, hby1]
    exact hc
  · have hc := letterbox_coord mt.scale W mt.pad_left x2 hspos (le_of_lt hW) h5
      (by rw [← hnw]; exact h6)
    rw [to_model_x, hbx2]
    exact hc
  · have hc := letterbox_coord mt.scale H mt.pad_top y2 hspos (le_of_lt hH) h7
      (by rw [← hnh]; exact h8)
    rw [to_model_y, hby2]
    exact hc

/-- Witness for C1: a 100×200 frame letterboxed into 640×640 (scale 16/5,
pads 160/0) and the model-space box (10, 200, 300, 400), whose corners lie
inside the padded-content region. -/
theorem claim_C1_witness :
    ((((10 : ℤ)) : ℚ) - ((⟨100, 200, (16 : ℚ)/5, 160, 0⟩ : CarMeta).scale + 1/2)
        < to_model_x (⟨100, 200, (16 : ℚ)/5, 160, 0⟩ : CarMeta) (scale_coords_car ((10 : ℤ) : ℚ) ((200 : ℤ) : ℚ) ((300 : ℤ) : ℚ) ((400 : ℤ) : ℚ) (⟨100, 200, (16 : ℚ)/5, 160, 0⟩ : CarMeta)).x1 ∧
      to_model_x (⟨100, 200, (16 : ℚ)/5, 160, 0⟩ : CarMeta) (scale_coords_car ((10 : ℤ) : ℚ) ((200 : ℤ) : ℚ) ((300 : ℤ) : ℚ) ((400 : ℤ) : ℚ) (⟨100, 200, (16 : ℚ)/5, 160, 0⟩ : CarMeta)).x1 ≤ (((10 : ℤ)) : ℚ)) ∧
    ((((200 : ℤ)) : ℚ) - ((⟨100, 200, (16 : ℚ)/5, 160, 0⟩ : CarMeta).scale + 1/2)
        < to_model_y (⟨100, 200, (16 : ℚ)/5, 160, 0⟩ : CarMeta) (scale_coords_car ((10 : ℤ) : ℚ) ((200 : ℤ) : ℚ) ((300 : ℤ) : ℚ) ((400 : ℤ) : ℚ) (⟨100, 200, (16 : ℚ)/5, 160, 0⟩ : CarMeta)).y1 ∧
      to_model_y (⟨100, 200, (16 : ℚ)/5, 160, 0⟩ : CarMeta) (scale_coords_car ((10 : ℤ) : ℚ) ((200 : ℤ) : ℚ) ((300 : ℤ) : ℚ) ((400 : ℤ) : ℚ) (⟨100, 200, (16 : ℚ)/5, 160, 0⟩ : CarMeta)).y1 ≤ (((200 : ℤ)) : ℚ)) ∧
    ((((300 : ℤ)) : ℚ) - ((⟨100, 200, (16 : ℚ)/5, 160, 0⟩ : CarMeta).scale + 1/2)
        < to_model_x (⟨100, 200, (16 : ℚ)/5, 160, 0⟩ : CarMeta) (scale_coords_car ((10 : ℤ) : ℚ) ((200 : ℤ) : ℚ) ((300 : ℤ) : ℚ) ((400 : ℤ) : ℚ) (⟨100, 200, (16 : ℚ)/5, 160, 0⟩ : CarMeta)).x2 ∧
      to_model_x (⟨100, 200, (16 : ℚ)/5, 160, 0⟩ : CarMeta) (scale_coords_car ((10 : ℤ) : ℚ) ((200 : ℤ) : ℚ) ((300 : ℤ) : ℚ) ((400 : ℤ) : ℚ) (⟨100, 200, (16 : ℚ)/5, 160, 0⟩ : CarMeta)).x2 ≤ (((300 : ℤ)) : ℚ)) ∧
    ((((400 : ℤ)) : ℚ) - ((⟨100, 200, (16 : ℚ)/5, 160, 0⟩ : CarMeta).scale + 1/2)
        < to_model_y (⟨100, 200, (16 : ℚ)/5, 160, 0⟩ : CarMeta) (scale_coords_car ((10 : ℤ) : ℚ) ((200 : ℤ) : ℚ) ((300 : ℤ) : ℚ) ((400 : ℤ) : ℚ) (⟨100, 200, (16 : ℚ)/5, 160, 0⟩ : CarMeta)).y2 ∧
      to_model_y (⟨100, 200, (16 : ℚ)/5, 160, 0⟩ : CarMeta) (scale_coords_car ((10 : ℤ) : ℚ) ((200 : ℤ) : ℚ) ((300 : ℤ) : ℚ) ((400 : ℤ) : ℚ) (⟨100, 200, (16 : ℚ)/5, 160, 0⟩ : CarMeta)).y2 ≤ (((400 : ℤ)) : ℚ)) :=
  claim_C1_roundtrip 100 200 640 640 (⟨100, 200, (16 : ℚ)/5, 160, 0⟩ : CarMeta) 320 640 10 200 300 400
    (by decide) (by decide) (by decide) (by decide)
    (by with_unfolding_all rfl)
    (by decide) (by decide) (by decide) (by decide)
    (by decide) (by decide) (by decide) (by decide)
